import Mathlib

/-!
Verification of the flight-connect backend's session-lifecycle core:
the session status engine, the overlap detector, the code generators,
and the session/participant/valid-key route handlers, embedded as pure
Lean functions over an explicit store.

Conventions of the embedding:
* An absolute instant is an `Int`, in milliseconds (the JavaScript
  `Date.getTime()` value).  A session's calendar date is embedded as the
  epoch-milliseconds of that date's midnight UTC, and an `HH:mm`
  time-of-day as minutes since midnight; `new Date(date + "T" + t + "Z")`
  then equals `date + t * 60000`.
* The MongoDB store is a list per collection; `findOne` is `List.find?`,
  `deleteMany` is a filter, `deleteOne` removes the first match.
* `Math.random()`-driven draws are fed by an explicit stream
  `r : Nat → Nat` of pre-drawn values, reduced modulo the relevant range.
-/

namespace FlightConnect

/-- The session lifecycle status (`'open' | 'closing' | 'closed' | 'completed'`). -/
inductive SessionStatus where
  | «open»
  | closing
  | closed
  | completed
deriving DecidableEq, Repr

/-- The `status` strings used by the HTTP query filter. -/
def statusToString : SessionStatus → String
  | .«open» => "open"
  | .closing => "closing"
  | .closed => "closed"
  | .completed => "completed"

/-- A session record (`src/models/Session.ts`).  `date` is the epoch-ms of the
session's calendar date at midnight UTC; the three time-of-day fields are
minutes since midnight parsed from their `HH:mm` strings. -/
structure Session where
  id : String
  sessionCode : String
  sessionNumber : Nat
  date : Int
  registrationStartTime : Nat
  startTime : Nat
  endTime : Option Nat
  closingMinutes : Nat
  status : SessionStatus
  comments : String
  createdById : Option String
  createdByName : Option String
deriving DecidableEq, Repr

/-- The value `new Date(date + "T" + time + "Z").getTime()`: the UTC instant of a
time-of-day on the session's date, in ms. -/
def toInstant (date : Int) (minutes : Nat) : Int :=
  date + (minutes : Int) * 60000

/-- The session's end instant: `endTime` when present, else start + 2 hours
(`sessionStartDateTime.getTime() + 2 * 60 * 60 * 1000`). -/
def endInstant (s : Session) : Int :=
  match s.endTime with
  | some e => toInstant s.date e
  | none => toInstant s.date s.startTime + 2 * 60 * 60 * 1000

/-- Source function `calculateSessionStatus` (src/routes — sessions router, lines 270–306).
All parses carry the `Z` suffix, so the arithmetic is over UTC instants.
The closing test in the source is `minutesUntilClosing <= 30 &&
minutesUntilClosing > 0` with `minutesUntilClosing = (closingTime - now) /
60000` as an exact rational, which is equivalent to the millisecond bounds
used here. -/
def calculateSessionStatus (s : Session) (now : Int) : SessionStatus :=
  let registrationStartDateTime := toInstant s.date s.registrationStartTime
  let sessionStartDateTime := toInstant s.date s.startTime
  let closingTime := sessionStartDateTime - (s.closingMinutes : Int) * 60 * 1000
  if now ≥ endInstant s then .completed
  else if now ≥ sessionStartDateTime then .closed
  else if now < registrationStartDateTime then .«open»
  else if closingTime - now ≤ 30 * 60000 ∧ 0 < closingTime - now then .closing
  else .«open»

/-- The spec's §4.2 `computeStatus`, written from the spec's ordered rules
(first match wins): 1. `now ≥ end → completed`; 2. `now ≥ start → closed`;
3. `now < registrationStart → open`; 4. `0 < closingTime − now ≤ 30min →
closing`; 5. otherwise `open`; with `end = endTime ?? start + 2h` and
`closingTime = start − closingMinutes`. -/
def specComputeStatus (s : Session) (now : Int) : SessionStatus :=
  let endT :=
    match s.endTime with
    | some e => toInstant s.date e
    | none => toInstant s.date s.startTime + 2 * 60 * 60 * 1000
  let startT := toInstant s.date s.startTime
  let regT := toInstant s.date s.registrationStartTime
  let closingT := startT - (s.closingMinutes : Int) * 60000
  if now ≥ endT then .completed
  else if now ≥ startT then .closed
  else if now < regT then .«open»
  else if 0 < closingT - now ∧ closingT - now ≤ 30 * 60000 then .closing
  else .«open»

theorem calculateSessionStatus_eq_spec (s : Session) (now : Int) :
    calculateSessionStatus s now = specComputeStatus s now := by
  unfold calculateSessionStatus specComputeStatus endInstant
  cases s.endTime <;> simp only [] <;> split_ifs with h1 h2 h3 h4 h5 <;>
    first
    | rfl
    | (exfalso; omega)

/-- Rules 2–5 alone: before the session start, at-or-after registration
start, with the closing boundary already passed, and (necessarily) before
the session's end, the engine reports `open`. -/
theorem status_open_of_past_closing (s : Session) (now : Int)
    (hEnd : now < endInstant s)
    (hStart : now < toInstant s.date s.startTime)
    (_hReg : toInstant s.date s.registrationStartTime ≤ now)
    (hClosing : toInstant s.date s.startTime - (s.closingMinutes : Int) * 60000 - now ≤ 0) :
    calculateSessionStatus s now = .«open» := by
  unfold calculateSessionStatus
  simp only []
  split_ifs with h1 h2 h3 h4 <;> first | rfl | (exfalso; omega)

/-- C1: the status engine follows the spec's ordered rules (first match
wins); and whenever `now` is past the closing boundary but before the
session's end instant, before `startTime`, and at-or-after
`registrationStartTime`, the result is `open` (the scenario-B boundary). -/
theorem C1_status_rules :
    (∀ (s : Session) (now : Int), calculateSessionStatus s now = specComputeStatus s now) ∧
    (∀ (s : Session) (now : Int),
      now < endInstant s →
      now < toInstant s.date s.startTime →
      toInstant s.date s.registrationStartTime ≤ now →
      toInstant s.date s.startTime - (s.closingMinutes : Int) * 60000 - now ≤ 0 →
      calculateSessionStatus s now = .«open») :=
  ⟨calculateSessionStatus_eq_spec, status_open_of_past_closing⟩

/-- A session whose `endTime` precedes its `startTime` (the schema checks only
the `HH:mm` format, not ordering): `registrationStartTime = 00:00`,
`endTime = 01:00`, `startTime = 02:00`, `closingMinutes = 60`. -/
def C1_badSession : Session :=
  { id := "s1", sessionCode := "ABC", sessionNumber := 1, date := 0,
    registrationStartTime := 0, startTime := 120, endTime := some 60,
    closingMinutes := 60, status := .«open», comments := "",
    createdById := none, createdByName := none }

/-- C1 counterexample: at `now = 01:30`, the closing boundary has passed
(`closingTime − now = 01:00 − 01:30 ≤ 0`), `now < startTime`, and
`now ≥ registrationStartTime`, yet the engine reports `completed`, not
`open`, because rule 1 fires first (`now ≥ endTime`). -/
theorem C1_counterexample :
    toInstant C1_badSession.date C1_badSession.startTime
        - (C1_badSession.closingMinutes : Int) * 60000 - 5400000 ≤ 0
    ∧ (5400000 : Int) < toInstant C1_badSession.date C1_badSession.startTime
    ∧ toInstant C1_badSession.date C1_badSession.registrationStartTime ≤ 5400000
    ∧ calculateSessionStatus C1_badSession 5400000 ≠ .«open» := by
  refine ⟨by decide, by decide, by decide, ?_⟩
  decide

/-- The spec's scenario-B session: `date = 2024-06-01` (epoch-ms base taken
as 0), `registrationStartTime = 08:00`, `startTime = 10:00`, no `endTime`,
`closingMinutes = 60`. -/
def C1_scenarioBSession : Session :=
  { id := "s2", sessionCode := "BCD", sessionNumber := 2, date := 0,
    registrationStartTime := 480, startTime := 600, endTime := none,
    closingMinutes := 60, status := .«open», comments := "",
    createdById := none, createdByName := none }

/-- C1 witness: scenario B — at `now = 09:40` the closing boundary
(`09:00`) has passed, yet the status is `open`. -/
theorem C1_witness : calculateSessionStatus C1_scenarioBSession 34800000 = .«open» :=
  C1_status_rules.2 C1_scenarioBSession 34800000 (by decide) (by decide) (by decide) (by decide)

/-! Overlap detector (POST /api/sessions, lines 410–426) -/

/-- The half-open interval `[start, end)` of a schedule on `date`, in ms;
a missing end time is synthesized as start + 2 hours, exactly as in the
route's `newEnd` / `end` computations. -/
def scheduleInterval (date : Int) (startT : Nat) (endT : Option Nat) : Int × Int :=
  (toInstant date startT,
    match endT with
    | some e => toInstant date e
    | none => toInstant date startT + 2 * 60 * 60 * 1000)

/-- The test `Math.max(start, newStart) < Math.min(end, newEnd)`. -/
def intervalsOverlap (a b : Int × Int) : Bool :=
  decide (max a.1 b.1 < min a.2 b.2)

/-- A parsed-and-validated session-creation request (`createSessionSchema`). -/
structure CreateRequest where
  date : Int
  registrationStartTime : Nat
  startTime : Nat
  endTime : Option Nat
  closingMinutes : Nat
  comments : String
deriving DecidableEq, Repr

/-- The overlap check of POST /api/sessions: fetch the same-date sessions
(`Session.find({ date })`) and `find` the first whose `[start, end)`
interval overlaps the candidate's. -/
def findConflict (store : List Session) (req : CreateRequest) : Option Session :=
  (store.filter (fun s => s.date == req.date)).find? (fun s =>
    intervalsOverlap (scheduleInterval s.date s.startTime s.endTime)
      (scheduleInterval req.date req.startTime req.endTime))

/-- C3: the overlap detector reports a conflict iff some same-date existing
session's half-open interval (with the 2-hour default end) intersects the
candidate's; and the spec's two examples: `[09:00,11:00)` vs
`[10:30,12:00)` conflict, `[09:00,11:00)` vs `[11:00,13:00)` do not. -/
theorem C3_overlap_detector :
    (∀ (store : List Session) (req : CreateRequest),
      (findConflict store req).isSome = true ↔
        ∃ s ∈ store, s.date = req.date ∧
          intervalsOverlap (scheduleInterval s.date s.startTime s.endTime)
            (scheduleInterval req.date req.startTime req.endTime) = true) ∧
    intervalsOverlap (scheduleInterval 0 540 (some 660)) (scheduleInterval 0 630 (some 720)) = true ∧
    intervalsOverlap (scheduleInterval 0 540 (some 660)) (scheduleInterval 0 660 (some 780)) = false := by
  refine ⟨fun store req => ?_, by decide, by decide⟩
  simp only [findConflict, List.find?_isSome, List.mem_filter, beq_iff_eq]
  constructor
  · rintro ⟨s, ⟨hs, hdate⟩, hover⟩
    exact ⟨s, hs, hdate, hover⟩
  · rintro ⟨s, hs, hdate, hover⟩
    exact ⟨s, ⟨hs, hdate⟩, hover⟩

/-! Session creation (POST /api/sessions, lines 394–454) -/

/-- JavaScript truthiness of `conflict.createdByName || 'другой диспетчер'`:
`undefined` and the empty string both fall back to the default. -/
def displayName : Option String → String
  | none => "другой диспетчер"
  | some n => if n = "" then "другой диспетчер" else n

/-- The data interpolated into the conflict error string
`Пересечение сессии диспетчера NAME (START-END)`: the conflicting
session's creator display name and its time range (`endTime || '—'` shown
as `none`). -/
structure ConflictInfo where
  dispatcherName : String
  startTime : Nat
  endTime : Option Nat
deriving DecidableEq, Repr

def mkConflictMessage (c : Session) : ConflictInfo :=
  ⟨displayName c.createdByName, c.startTime, c.endTime⟩

inductive CreateResult where
  | conflict (info : ConflictInfo)
  | created (s : Session)
deriving DecidableEq, Repr

/-- The object `{ ...validatedData, closingMinutes }` passed to
`calculateSessionStatus` at creation: only the schedule fields are read by
the status engine, the rest are placeholders. -/
def requestSchedule (req : CreateRequest) : Session :=
  { id := "", sessionCode := "", sessionNumber := 0, date := req.date,
    registrationStartTime := req.registrationStartTime, startTime := req.startTime,
    endTime := req.endTime, closingMinutes := req.closingMinutes,
    status := .«open», comments := req.comments,
    createdById := none, createdByName := none }

/-- POST /api/sessions after schema validation: compute the initial status
via `calculateSessionStatus`, run the overlap check, reject with the
conflict message (store untouched) or persist the new session.
`sessionCode`, `sessionNumber`, `newId`, `creatorId` and `creatorName`
stand for the values obtained before this step
(`generateUniqueSessionCode`, `getNextSessionNumber`, `generateId`,
`req.userId`, `creator?.name || creator?.username || 'Диспетчер'`). -/
def createSession (store : List Session) (req : CreateRequest) (now : Int)
    (sessionCode : String) (sessionNumber : Nat) (newId : String)
    (creatorId : Option String) (creatorName : String) :
    CreateResult × List Session :=
  let status := calculateSessionStatus (requestSchedule req) now
  match findConflict store req with
  | some c => (.conflict (mkConflictMessage c), store)
  | none =>
    let s : Session :=
      { id := newId, sessionCode := sessionCode, sessionNumber := sessionNumber,
        date := req.date, registrationStartTime := req.registrationStartTime,
        startTime := req.startTime, endTime := req.endTime,
        closingMinutes := req.closingMinutes, status := status,
        comments := req.comments, createdById := creatorId,
        createdByName := some creatorName }
    (.created s, store ++ [s])

/-- C5: when the candidate's time range overlaps some existing same-day
session, creation returns a conflict error carrying the conflicting
session's creator display name and its time range, and the store is
unchanged. -/
theorem C5_conflict_rejection (store : List Session) (req : CreateRequest) (now : Int)
    (sessionCode : String) (sessionNumber : Nat) (newId : String)
    (creatorId : Option String) (creatorName : String)
    (h : ∃ s ∈ store, s.date = req.date ∧
      intervalsOverlap (scheduleInterval s.date s.startTime s.endTime)
        (scheduleInterval req.date req.startTime req.endTime) = true) :
    ∃ c, findConflict store req = some c ∧ c.date = req.date ∧
      intervalsOverlap (scheduleInterval c.date c.startTime c.endTime)
        (scheduleInterval req.date req.startTime req.endTime) = true ∧
      createSession store req now sessionCode sessionNumber newId creatorId creatorName
        = (.conflict (mkConflictMessage c), store) := by
  have hsome : (findConflict store req).isSome = true := by
    rw [findConflict, List.find?_isSome]
    obtain ⟨s, hs, hdate, hover⟩ := h
    exact ⟨s, List.mem_filter.mpr ⟨hs, by simpa using hdate⟩, hover⟩
  obtain ⟨c, hc⟩ := Option.isSome_iff_exists.mp hsome
  have hmem := List.mem_filter.mp (List.mem_of_find?_eq_some hc)
  have hover := List.find?_some hc
  refine ⟨c, hc, by simpa using hmem.2, hover, ?_⟩
  unfold createSession
  rw [hc]

/-- A stored session `[10:00, 12:00)` (2-hour default end) on day 0. -/
def C5_existing : Session :=
  { id := "s10", sessionCode := "XYZ", sessionNumber := 3, date := 0,
    registrationStartTime := 480, startTime := 600, endTime := none,
    closingMinutes := 60, status := .«open», comments := "",
    createdById := some "u1", createdByName := some "Анна" }

/-- Scenario C's candidate: same day, `startTime = 10:30`, no end time. -/
def C5_request : CreateRequest :=
  { date := 0, registrationStartTime := 540, startTime := 630, endTime := none,
    closingMinutes := 60, comments := "" }

/-- C5 witness: creating the scenario-C candidate against the stored
`[10:00, 12:00)` session is rejected with that session's creator and time
range, and the store is unchanged. -/
theorem C5_witness :
    ∃ c, findConflict [C5_existing] C5_request = some c ∧ c.date = C5_request.date ∧
      intervalsOverlap (scheduleInterval c.date c.startTime c.endTime)
        (scheduleInterval C5_request.date C5_request.startTime C5_request.endTime) = true ∧
      createSession [C5_existing] C5_request 0 "QRS" 4 "s11" (some "u2") "Борис"
        = (.conflict (mkConflictMessage c), [C5_existing]) :=
  C5_conflict_rejection [C5_existing] C5_request 0 "QRS" 4 "s11" (some "u2") "Борис"
    ⟨C5_existing, by decide, by decide, by decide⟩

/-- C8 amended: the status persisted at creation is the status engine's
result for the requested schedule at the creation instant (not
unconditionally `open`). -/
theorem C8_initial_status_amended (store : List Session) (req : CreateRequest) (now : Int)
    (sessionCode : String) (sessionNumber : Nat) (newId : String)
    (creatorId : Option String) (creatorName : String) (s : Session) (store' : List Session)
    (h : createSession store req now sessionCode sessionNumber newId creatorId creatorName
      = (.created s, store')) :
    s.status = calculateSessionStatus (requestSchedule req) now ∧ store' = store ++ [s] := by
  unfold createSession at h
  rcases hf : findConflict store req with _ | c
  · rw [hf] at h
    simp only [Prod.mk.injEq, CreateResult.created.injEq] at h
    obtain ⟨rfl, rfl⟩ := h
    exact ⟨rfl, rfl⟩
  · rw [hf] at h
    simp at h

/-- A request whose whole schedule lies in the past at creation time:
`registrationStartTime = 00:00`, `startTime = 01:00`, no end (default end
`03:00`). -/
def C8_pastRequest : CreateRequest :=
  { date := 0, registrationStartTime := 0, startTime := 60, endTime := none,
    closingMinutes := 0, comments := "" }

/-- Extracts the persisted session's status from a successful creation. -/
def createdStatus : CreateResult → Option SessionStatus
  | .created s => some s.status
  | .conflict _ => none

/-- C8 counterexample: creating `C8_pastRequest` into an empty store at
`now = 04:00` succeeds, and the persisted status is `completed`, not
`open`. -/
theorem C8_counterexample :
    createdStatus (createSession [] C8_pastRequest 14400000 "ABC" 1 "s1" none "Диспетчер").1
      = some .completed ∧ some SessionStatus.completed ≠ some SessionStatus.«open» := by
  constructor
  · rfl
  · decide

/-- A request wholly in the future at `now = 0`. -/
def C8_futureRequest : CreateRequest :=
  { date := 0, registrationStartTime := 480, startTime := 600, endTime := none,
    closingMinutes := 60, comments := "" }

/-- The session persisted for `C8_futureRequest` at `now = 0`. -/
def C8_futureSession : Session :=
  { id := "s1", sessionCode := "ABC", sessionNumber := 1, date := 0,
    registrationStartTime := 480, startTime := 600, endTime := none,
    closingMinutes := 60, status := .«open», comments := "",
    createdById := none, createdByName := some "Диспетчер" }

/-- C8 witness: a future schedule created at `now = 0` is persisted with
the engine's status for that instant (here `open`). -/
theorem C8_witness :
    C8_futureSession.status = calculateSessionStatus (requestSchedule C8_futureRequest) 0 ∧
      [C8_futureSession] = ([] : List Session) ++ [C8_futureSession] :=
  C8_initial_status_amended [] C8_futureRequest 0 "ABC" 1 "s1" none "Диспетчер"
    C8_futureSession [C8_futureSession] (by decide)

/-! Listing with status refresh (GET /api/sessions, GET /api/sessions/upcoming) -/

def setStatus (s : Session) (st : SessionStatus) : Session := { s with status := st }

/-- The refresh loop shared by both listing routes: for each fetched
session compute `calculateSessionStatus`; when it differs from the stored
status, assign it and `save()`.  Returns the documents as sent to the
client, paired with the list of records written back to the store. -/
def refreshStatuses (now : Int) : List Session → List Session × List Session
  | [] => ([], [])
  | s :: rest =>
    let newStatus := calculateSessionStatus s now
    let (docs, saves) := refreshStatuses now rest
    if s.status = newStatus then (s :: docs, saves)
    else (setStatus s newStatus :: docs, setStatus s newStatus :: saves)

/-- The query of GET /api/sessions: `if (status && status !== 'all')`
filter by stored status (an absent or empty or `all` filter returns
everything).  Sort order is irrelevant to the properties below and is
omitted. -/
def sessionQuery (store : List Session) (statusFilter : Option String) : List Session :=
  match statusFilter with
  | none => store
  | some f =>
    if f = "" ∨ f = "all" then store
    else store.filter (fun s => statusToString s.status == f)

/-- GET /api/sessions: fetch per the filter, refresh statuses, return the
documents; the second component lists the sessions written back. -/
def listSessions (store : List Session) (statusFilter : Option String) (now : Int) :
    List Session × List Session :=
  refreshStatuses now (sessionQuery store statusFilter)

/-- The query of GET /api/sessions/upcoming: `status: { $ne: 'completed' }`. -/
def upcomingQuery (store : List Session) : List Session :=
  store.filter (fun s => !(s.status == SessionStatus.completed))

/-- GET /api/sessions/upcoming: fetch non-completed sessions, refresh. -/
def upcomingSessions (store : List Session) (now : Int) : List Session × List Session :=
  refreshStatuses now (upcomingQuery store)

theorem refreshStatuses_eq (now : Int) (l : List Session) :
    refreshStatuses now l =
      (l.map (fun s => setStatus s (calculateSessionStatus s now)),
       (l.filter (fun s => !(s.status == calculateSessionStatus s now))).map
         (fun s => setStatus s (calculateSessionStatus s now))) := by
  induction l with
  | nil => rfl
  | cons s rest ih =>
    simp only [refreshStatuses, ih, List.map_cons, List.filter_cons]
    by_cases h : s.status = calculateSessionStatus s now
    · have he : setStatus s (calculateSessionStatus s now) = s := by
        rw [← h]; cases s; rfl
      simp [h, he]
    · simp [h, beq_iff_eq]

/-- C6: for both listing operations, every returned document carries the
recomputed status for its session, and the write-back set is exactly the
queried sessions whose recomputed status differs from the stored one
(write-on-change). -/
theorem C6_write_on_change (store : List Session) (statusFilter : Option String) (now : Int) :
    listSessions store statusFilter now =
      ((sessionQuery store statusFilter).map
          (fun s => setStatus s (calculateSessionStatus s now)),
        ((sessionQuery store statusFilter).filter
            (fun s => !(s.status == calculateSessionStatus s now))).map
          (fun s => setStatus s (calculateSessionStatus s now))) ∧
    upcomingSessions store now =
      ((upcomingQuery store).map (fun s => setStatus s (calculateSessionStatus s now)),
        ((upcomingQuery store).filter
            (fun s => !(s.status == calculateSessionStatus s now))).map
          (fun s => setStatus s (calculateSessionStatus s now))) :=
  ⟨refreshStatuses_eq now _, refreshStatuses_eq now _⟩

/-! Deletion with cascade (DELETE /api/sessions/:id, lines 479–504) -/

/-- A participant record (`src/models/Participant.ts`). -/
structure Participant where
  id : String
  sessionId : String
  name : String
  validationCode : String
  code : String
  isValid : Option Bool
  registeredAt : Int
deriving DecidableEq, Repr

/-- A validation-key record (`src/models/ValidKey.ts`). -/
structure ValidKey where
  id : String
  sessionId : String
  key : String
  pilotName : String
  month : String
deriving DecidableEq, Repr

/-- The three collections touched by the session routes. -/
structure Store where
  sessions : List Session
  participants : List Participant
  validKeys : List ValidKey
deriving DecidableEq, Repr

inductive DeleteResult where
  | notFound
  | invalidState
  | deleted
deriving DecidableEq, Repr

/-- DELETE /api/sessions/:id: find the session; reject unless its stored
status is `completed`; otherwise `Participant.deleteMany({ sessionId })`
and `Session.deleteOne({ id })`.  Valid keys are never touched. -/
def deleteSession (st : Store) (sessionId : String) : DeleteResult × Store :=
  match st.sessions.find? (fun s => s.id == sessionId) with
  | none => (.notFound, st)
  | some s =>
    if s.status ≠ .completed then (.invalidState, st)
    else
      (.deleted,
        { sessions := st.sessions.eraseP (fun x => x.id == sessionId),
          participants := st.participants.filter (fun p => !(p.sessionId == s.id)),
          validKeys := st.validKeys })

theorem eraseP_id_ne {l : List Session} {i : String}
    (hp : l.Pairwise (fun a b => a.id ≠ b.id)) :
    ∀ x ∈ l.eraseP (fun y => y.id == i), x.id = i → x ∈ l ∧ False := by
  induction l with
  | nil => intro x hx; simp [List.eraseP] at hx
  | cons a t ih =>
    intro x hx hxi
    rcases List.pairwise_cons.mp hp with ⟨ha, ht⟩
    cases hai : (a.id == i) with
    | true =>
      simp only [List.eraseP_cons, hai, cond_true] at hx
      exact ⟨List.mem_cons_of_mem a hx, ha x hx ((beq_iff_eq.mp hai).trans hxi.symm)⟩
    | false =>
      simp only [List.eraseP_cons, hai, cond_false] at hx
      rcases List.mem_cons.mp hx with rfl | hx'
      · exact absurd (beq_iff_eq.mpr hxi) (by simp [hai])
      · exact ⟨List.mem_cons_of_mem a (ih ht x hx' hxi).1, (ih ht x hx' hxi).2⟩

/-- C7: deleting a found session fails (store untouched) unless the stored
status is `completed`; on success the session is removed, exactly the
participants referencing it are removed, and the valid keys — including
any referencing the deleted session — are all left in place. -/
theorem C7_delete_cascade (st : Store) (sessionId : String) (s : Session)
    (hfind : st.sessions.find? (fun x => x.id == sessionId) = some s) :
    (s.status ≠ .completed → deleteSession st sessionId = (.invalidState, st)) ∧
    (s.status = .completed →
      deleteSession st sessionId =
        (.deleted,
          { sessions := st.sessions.eraseP (fun x => x.id == sessionId),
            participants := st.participants.filter (fun p => !(p.sessionId == s.id)),
            validKeys := st.validKeys }) ∧
      (deleteSession st sessionId).2.validKeys = st.validKeys ∧
      (∀ p ∈ (deleteSession st sessionId).2.participants, p.sessionId ≠ s.id) ∧
      (∀ p ∈ st.participants, p.sessionId ≠ s.id →
        p ∈ (deleteSession st sessionId).2.participants) ∧
      (st.sessions.Pairwise (fun a b => a.id ≠ b.id) →
        ∀ x ∈ (deleteSession st sessionId).2.sessions, x.id ≠ sessionId)) := by
  constructor
  · intro hne
    simp [deleteSession, hfind, hne]
  · intro hc
    have hresult : deleteSession st sessionId =
        (.deleted,
          { sessions := st.sessions.eraseP (fun x => x.id == sessionId),
            participants := st.participants.filter (fun p => !(p.sessionId == s.id)),
            validKeys := st.validKeys }) := by
      simp [deleteSession, hfind, hc]
    refine ⟨hresult, by rw [hresult], ?_, ?_, ?_⟩
    · intro p hp
      rw [hresult] at hp
      have := List.mem_filter.mp hp
      simpa using this.2
    · intro p hp hne
      rw [hresult]
      exact List.mem_filter.mpr ⟨hp, by simpa using hne⟩
    · intro hpw x hx
      rw [hresult] at hx
      intro hxi
      exact (eraseP_id_ne hpw x hx hxi).2

def C7_session : Session :=
  { id := "s1", sessionCode := "AAA", sessionNumber := 1, date := 0,
    registrationStartTime := 0, startTime := 60, endTime := none,
    closingMinutes := 0, status := .completed, comments := "",
    createdById := none, createdByName := none }

def C7_store : Store :=
  { sessions := [C7_session],
    participants :=
      [{ id := "p1", sessionId := "s1", name := "A", validationCode := "AAA",
         code := "BBB", isValid := none, registeredAt := 0 },
       { id := "p2", sessionId := "s2", name := "B", validationCode := "CCC",
         code := "DDD", isValid := some true, registeredAt := 0 }],
    validKeys := [{ id := "k1", sessionId := "s1", key := "AAA",
                    pilotName := "P", month := "2024-06" }] }

/-- C7 witness: the theorem applied to a concrete store holding one
completed session, one referencing participant, one foreign participant
and one referencing valid key. -/
theorem C7_witness :
    (C7_session.status ≠ .completed → deleteSession C7_store "s1" = (.invalidState, C7_store)) ∧
    (C7_session.status = .completed →
      deleteSession C7_store "s1" =
        (.deleted,
          { sessions := C7_store.sessions.eraseP (fun x => x.id == "s1"),
            participants := C7_store.participants.filter (fun p => !(p.sessionId == C7_session.id)),
            validKeys := C7_store.validKeys }) ∧
      (deleteSession C7_store "s1").2.validKeys = C7_store.validKeys ∧
      (∀ p ∈ (deleteSession C7_store "s1").2.participants, p.sessionId ≠ C7_session.id) ∧
      (∀ p ∈ C7_store.participants, p.sessionId ≠ C7_session.id →
        p ∈ (deleteSession C7_store "s1").2.participants) ∧
      (C7_store.sessions.Pairwise (fun a b => a.id ≠ b.id) →
        ∀ x ∈ (deleteSession C7_store "s1").2.sessions, x.id ≠ "s1")) :=
  C7_delete_cascade C7_store "s1" C7_session (by decide)

/-! Session update (PATCH /api/sessions/:id, lines 456–477) -/

/-- The `status` enum of `updateSessionSchema`. -/
def parseStatus (str : String) : Option SessionStatus :=
  if str = "open" then some .«open»
  else if str = "closing" then some .closing
  else if str = "closed" then some .closed
  else if str = "completed" then some .completed
  else none

/-- A raw PATCH body: the two fields `updateSessionSchema` knows about,
plus arbitrary unrecognized fields (`extra`), which `z.object(...).parse`
strips before `Object.assign`. -/
structure UpdatePatch where
  comments : Option String
  status : Option String
  extra : List (String × String)
deriving DecidableEq, Repr

inductive UpdateResult where
  | validationError
  | ok (s : Session)
deriving DecidableEq, Repr

/-- PATCH /api/sessions/:id on a found session: parse the body against
`updateSessionSchema` (optional `comments`, optional `status` drawn from
the enum; unknown keys stripped), then `Object.assign(session,
validatedData)` assigns exactly the keys present. -/
def updateSession (s : Session) (p : UpdatePatch) : UpdateResult :=
  match p.status with
  | none => .ok { s with comments := p.comments.getD s.comments }
  | some str =>
    match parseStatus str with
    | none => .validationError
    | some st => .ok { s with comments := p.comments.getD s.comments, status := st }

/-- C10: an update can change only `comments` and `status` — every other
field of the session is unchanged — and the unrecognized fields of the
patch have no effect on the result. -/
theorem C10_update_frame (s : Session) (p : UpdatePatch) :
    (∀ s', updateSession s p = .ok s' →
      s'.id = s.id ∧ s'.sessionCode = s.sessionCode ∧
      s'.sessionNumber = s.sessionNumber ∧ s'.date = s.date ∧
      s'.registrationStartTime = s.registrationStartTime ∧
      s'.startTime = s.startTime ∧ s'.endTime = s.endTime ∧
      s'.closingMinutes = s.closingMinutes ∧ s'.createdById = s.createdById ∧
      s'.createdByName = s.createdByName) ∧
    (∀ extra', updateSession s { p with extra := extra' } = updateSession s p) := by
  constructor
  · intro s' h
    rcases hst : p.status with _ | str
    · simp only [updateSession, hst, UpdateResult.ok.injEq] at h
      subst h
      exact ⟨rfl, rfl, rfl, rfl, rfl, rfl, rfl, rfl, rfl, rfl⟩
    · rcases hps : parseStatus str with _ | stv
      · simp only [updateSession, hst, hps] at h
        exact UpdateResult.noConfusion h
      · simp only [updateSession, hst, hps, UpdateResult.ok.injEq] at h
        subst h
        exact ⟨rfl, rfl, rfl, rfl, rfl, rfl, rfl, rfl, rfl, rfl⟩
  · intro extra'
    rfl

def C10_session : Session :=
  { id := "s9", sessionCode := "KLM", sessionNumber := 9, date := 0,
    registrationStartTime := 480, startTime := 600, endTime := some 720,
    closingMinutes := 30, status := .«open», comments := "old",
    createdById := some "u9", createdByName := some "Вера" }

def C10_patch : UpdatePatch :=
  { comments := some "new", status := some "completed",
    extra := [("date", "2099-01-01"), ("startTime", "23:59")] }

/-- C10 witness: a patch carrying new `comments`, a new `status`, and
unrecognized `date`/`startTime` fields leaves every frame field of the
session unchanged. -/
theorem C10_witness :
    { C10_session with comments := "new", status := SessionStatus.completed }.id
        = C10_session.id ∧
      (∀ extra', updateSession C10_session { C10_patch with extra := extra' }
        = updateSession C10_session C10_patch) :=
  ⟨((C10_update_frame C10_session C10_patch).1
      { C10_session with comments := "new", status := SessionStatus.completed } (by decide)).1,
    (C10_update_frame C10_session C10_patch).2⟩

/-! Valid-key issuance (POST /api/valid-keys, validKeys router lines 117–170) -/

/-- The call `key.toUpperCase()`. -/
def toUpperStr (s : String) : String := ⟨s.data.map Char.toUpper⟩

def isUpperLetter (c : Char) : Bool := 'A' ≤ c && c ≤ 'Z'

def isDigitChar (c : Char) : Bool := '0' ≤ c && c ≤ '9'

/-- The regex `^[A-Z]{3}$`. -/
def matchesUpper3 (s : String) : Bool :=
  match s.data with
  | [a, b, c] => isUpperLetter a && isUpperLetter b && isUpperLetter c
  | _ => false

/-- The regex `^[A-Z]{3}[0-9]$` (the code generators' fallback shape). -/
def matchesUpper3Digit (s : String) : Bool :=
  match s.data with
  | [a, b, c, d] => isUpperLetter a && isUpperLetter b && isUpperLetter c && isDigitChar d
  | _ => false

/-- The request body of POST /api/valid-keys. -/
structure AddKeyRequest where
  sessionId : String
  key : String
  pilotName : String
deriving DecidableEq, Repr

/-- Schema `addValidKeySchema`: `sessionId` nonempty, `key` matching `^[A-Z]{3}$`,
`pilotName` of length 1–100. -/
def matchesAddKeySchema (r : AddKeyRequest) : Bool :=
  decide (1 ≤ r.sessionId.length) && matchesUpper3 r.key &&
    decide (1 ≤ r.pilotName.length) && decide (r.pilotName.length ≤ 100)

/-- Source function `isKeyUnique` (lines 42–52): no stored key equals the requested value
uppercased with a month tag in the current-or-previous-month window. -/
def isKeyUnique (keys : List ValidKey) (cur prev : String) (key : String) : Bool :=
  (keys.find? (fun k =>
    k.key == toUpperStr key && (k.month == cur || k.month == prev))).isNone

inductive AddKeyResult where
  | validationError
  | sessionNotFound
  | duplicateKey
  | duplicatePilot
  | issued (k : ValidKey)
deriving DecidableEq, Repr

/-- POST /api/valid-keys: schema validation, session lookup, key
uniqueness over the two-month window, pilot-per-session uniqueness over
the same window, then persist the key uppercased and tagged with the
current month.  `cur`/`prev` stand for `getCurrentMonth()` /
`getPreviousMonth()` and `newId` for `generateId()`. -/
def addValidKey (st : Store) (req : AddKeyRequest) (cur prev : String) (newId : String) :
    AddKeyResult × Store :=
  if ¬ matchesAddKeySchema req then (.validationError, st)
  else
    match st.sessions.find? (fun s => s.id == req.sessionId) with
    | none => (.sessionNotFound, st)
    | some _ =>
      if ¬ isKeyUnique st.validKeys cur prev req.key then (.duplicateKey, st)
      else
        match st.validKeys.find? (fun k => k.sessionId == req.sessionId &&
            k.pilotName == req.pilotName && (k.month == cur || k.month == prev)) with
        | some _ => (.duplicatePilot, st)
        | none =>
          let k : ValidKey :=
            { id := newId, sessionId := req.sessionId,
              key := toUpperStr req.key, pilotName := req.pilotName.trim, month := cur }
          (.issued k, { st with validKeys := st.validKeys ++ [k] })

/-- Some stored key collides (uppercased) within the two-month window. -/
def DupKeyExists (keys : List ValidKey) (cur prev key : String) : Prop :=
  ∃ k ∈ keys, k.key = toUpperStr key ∧ (k.month = cur ∨ k.month = prev)

/-- The pilot already holds a key for this session in the window. -/
def DupPilotExists (keys : List ValidKey) (cur prev sid pname : String) : Prop :=
  ∃ k ∈ keys, k.sessionId = sid ∧ k.pilotName = pname ∧ (k.month = cur ∨ k.month = prev)

theorem isKeyUnique_false_iff (keys : List ValidKey) (cur prev key : String) :
    isKeyUnique keys cur prev key = false ↔ DupKeyExists keys cur prev key := by
  unfold isKeyUnique DupKeyExists
  rw [Bool.eq_false_iff, Ne, Option.isNone_iff_eq_none, ← Ne,
    Option.ne_none_iff_isSome, List.find?_isSome]
  simp [and_assoc]

theorem find?_pilot_isSome_iff (keys : List ValidKey) (cur prev sid pname : String) :
    (keys.find? (fun k => k.sessionId == sid && k.pilotName == pname &&
        (k.month == cur || k.month == prev))).isSome = true ↔
      DupPilotExists keys cur prev sid pname := by
  rw [List.find?_isSome]
  unfold DupPilotExists
  simp [and_assoc]

/-- C9: issuance on an existing session with a schema-valid body fails
with a duplicate-key error when the uppercased value collides within the
current-or-previous-month window; otherwise with a duplicate-pilot error
when the pilot already holds a key for the session in that window;
otherwise persists the key uppercased and tagged with the current month
and returns it.  Failing branches leave the store unchanged. -/
theorem C9_issue_key (st : Store) (req : AddKeyRequest) (cur prev newId : String)
    (sess : Session)
    (hschema : matchesAddKeySchema req = true)
    (hsession : st.sessions.find? (fun s => s.id == req.sessionId) = some sess) :
    (DupKeyExists st.validKeys cur prev req.key →
      addValidKey st req cur prev newId = (.duplicateKey, st)) ∧
    (¬ DupKeyExists st.validKeys cur prev req.key →
      DupPilotExists st.validKeys cur prev req.sessionId req.pilotName →
      addValidKey st req cur prev newId = (.duplicatePilot, st)) ∧
    (¬ DupKeyExists st.validKeys cur prev req.key →
      ¬ DupPilotExists st.validKeys cur prev req.sessionId req.pilotName →
      addValidKey st req cur prev newId =
        (.issued { id := newId, sessionId := req.sessionId, key := toUpperStr req.key,
                   pilotName := req.pilotName.trim, month := cur },
          { st with validKeys := st.validKeys ++
              [{ id := newId, sessionId := req.sessionId, key := toUpperStr req.key,
                 pilotName := req.pilotName.trim, month := cur }] })) := by
  refine ⟨?_, ?_, ?_⟩
  · intro hdup
    have hku : isKeyUnique st.validKeys cur prev req.key = false :=
      (isKeyUnique_false_iff _ _ _ _).mpr hdup
    simp [addValidKey, hschema, hsession, hku]
  · intro hnodup hpilot
    have hku : isKeyUnique st.validKeys cur prev req.key = true := by
      cases h : isKeyUnique st.validKeys cur prev req.key
      · exact absurd ((isKeyUnique_false_iff _ _ _ _).mp h) hnodup
      · rfl
    have hfp := (find?_pilot_isSome_iff st.validKeys cur prev req.sessionId req.pilotName).mpr hpilot
    obtain ⟨k, hk⟩ := Option.isSome_iff_exists.mp hfp
    simp [addValidKey, hschema, hsession, hku, hk]
  · intro hnodup hnopilot
    have hku : isKeyUnique st.validKeys cur prev req.key = true := by
      cases h : isKeyUnique st.validKeys cur prev req.key
      · exact absurd ((isKeyUnique_false_iff _ _ _ _).mp h) hnodup
      · rfl
    have hfp : st.validKeys.find? (fun k => k.sessionId == req.sessionId &&
        k.pilotName == req.pilotName && (k.month == cur || k.month == prev)) = none := by
      cases hf : st.validKeys.find? (fun k => k.sessionId == req.sessionId &&
          k.pilotName == req.pilotName && (k.month == cur || k.month == prev)) with
      | none => rfl
      | some k =>
        exact absurd ((find?_pilot_isSome_iff st.validKeys cur prev req.sessionId
          req.pilotName).mp (by rw [hf]; rfl)) hnopilot
    simp [addValidKey, hschema, hsession, hku, hfp]

def C9_session : Session :=
  { id := "sess1", sessionCode := "QQQ", sessionNumber := 1, date := 0,
    registrationStartTime := 0, startTime := 60, endTime := none,
    closingMinutes := 0, status := .«open», comments := "",
    createdById := none, createdByName := none }

def C9_store : Store :=
  { sessions := [C9_session], participants := [], validKeys := [] }

def C9_request : AddKeyRequest :=
  { sessionId := "sess1", key := "ABC", pilotName := "Pilot" }

/-- C9 witness: on an empty key collection the request is persisted
uppercased with the current month tag. -/
theorem C9_witness :
    addValidKey C9_store C9_request "2024-06" "2024-05" "k1" =
      (.issued { id := "k1", sessionId := C9_request.sessionId,
                 key := toUpperStr C9_request.key,
                 pilotName := C9_request.pilotName.trim, month := "2024-06" },
        { C9_store with validKeys := C9_store.validKeys ++
            [{ id := "k1", sessionId := C9_request.sessionId,
               key := toUpperStr C9_request.key,
               pilotName := C9_request.pilotName.trim, month := "2024-06" }] }) :=
  (C9_issue_key C9_store C9_request "2024-06" "2024-05" "k1" C9_session
    (by decide) (by decide)).2.2
    (by simp [DupKeyExists, C9_store]) (by simp [DupPilotExists, C9_store])

/-! Code generators (`generateUniqueKey`, lines 55–71;
`generateUniqueSessionCode`, lines 238–253)

Randomness is embedded as a stream `r : Nat → Nat` of pre-drawn values;
`Math.floor(Math.random() * n)` becomes `r i % n` for the `i`-th draw.
The async uniqueness probe (`isKeyUnique` / `isSessionCodeUnique` against
the store) is abstracted as the predicate `check`, as in the spec's
`generateUniqueCode(checkFn, ...)` contract — note the source's `checkFn`
convention is inverted there: here `check key = true` means available. -/

def rsnChars : List Char := "ABCDEFGHIJKLMNOPQRSTUVWXYZ".toList

/-- One draw `chars.charAt(Math.floor(Math.random() * chars.length))` for a
pre-drawn stream value. -/
def letterOf (n : Nat) : Char := rsnChars.getD (n % 26) 'A'

/-- Source functions `generateRSNKey` / `generateSessionCode` / `generateCode`: three
draws; the `k`-th call consumes stream positions `3k, 3k+1, 3k+2`. -/
def generateRSNKey (r : Nat → Nat) (k : Nat) : String :=
  ⟨[letterOf (r (3 * k)), letterOf (r (3 * k + 1)), letterOf (r (3 * k + 2))]⟩

def maxAttempts : Nat := 1000

/-- The digit `Math.floor(Math.random() * 10)` appended to the fallback draw: the
decimal digit character. -/
def digitChar (d : Nat) : Char := Char.ofNat (48 + d % 10)

/-- The observable outcome of the retry loop: final key, final value of
the `attempts` counter, and how many times the uniqueness probe ran. -/
structure GenState where
  key : String
  attempts : Nat
  probes : Nat
deriving DecidableEq, Repr

/-- The loop `while (!(await isKeyUnique(key)) && attempts < maxAttempts)`.  The probe runs at every evaluation of the condition (it is the
left operand of `&&`), including the final evaluation that exits the
loop, so `probes` is bumped on exit as well.  `fuel` stands for
`maxAttempts - attempts`, making `fuel = 0` the `attempts < maxAttempts`
exit; the body redraws (`k`-th draw index `attempts + 1`, the initial
draw being index 0) and increments `attempts`. -/
def genLoop (check : String → Bool) (r : Nat → Nat) :
    String → Nat → Nat → Nat → GenState
  | key, attempts, probes, 0 => ⟨key, attempts, probes + 1⟩
  | key, attempts, probes, fuel + 1 =>
    if check key then ⟨key, attempts, probes + 1⟩
    else genLoop check r (generateRSNKey r (attempts + 1)) (attempts + 1) (probes + 1) fuel

/-- The loop as entered by both generators: initial draw at index 0,
`attempts = 0`, full fuel. -/
def genLoopRun (check : String → Bool) (r : Nat → Nat) : GenState :=
  genLoop check r (generateRSNKey r 0) 0 0 maxAttempts

/-- Source function `generateUniqueKey` (lines 55–71) with its probe count: run the loop;
if `attempts >= maxAttempts`, replace the key by a fresh draw with a
random decimal digit appended (never re-probed); return
`key.toUpperCase()`. -/
def generateUniqueKeyRun (check : String → Bool) (r : Nat → Nat) (d : Nat) : String × Nat :=
  let st := genLoopRun check r
  let key :=
    if maxAttempts ≤ st.attempts
    then (generateRSNKey r (st.attempts + 1)).push (digitChar d)
    else st.key
  (toUpperStr key, st.probes)

def generateUniqueKey (check : String → Bool) (r : Nat → Nat) (d : Nat) : String :=
  (generateUniqueKeyRun check r d).1

/-- Source function `generateUniqueSessionCode` (lines 238–253): identical loop, but the
result is returned without `toUpperCase()`. -/
def generateUniqueSessionCodeRun (check : String → Bool) (r : Nat → Nat) (d : Nat) :
    String × Nat :=
  let st := genLoopRun check r
  let code :=
    if maxAttempts ≤ st.attempts
    then (generateRSNKey r (st.attempts + 1)).push (digitChar d)
    else st.key
  (code, st.probes)

def generateUniqueSessionCode (check : String → Bool) (r : Nat → Nat) (d : Nat) : String :=
  (generateUniqueSessionCodeRun check r d).1

theorem letterOf_upper (n : Nat) : isUpperLetter (letterOf n) = true := by
  have h : n % 26 < 26 := Nat.mod_lt _ (by decide)
  have hall : ∀ i : Fin 26, isUpperLetter (rsnChars.getD i.val 'A') = true := by decide
  exact hall ⟨n % 26, h⟩

theorem letterOf_toUpper (n : Nat) : (letterOf n).toUpper = letterOf n := by
  have h : n % 26 < 26 := Nat.mod_lt _ (by decide)
  have hall : ∀ i : Fin 26, (rsnChars.getD i.val 'A').toUpper = rsnChars.getD i.val 'A' := by
    decide
  exact hall ⟨n % 26, h⟩

theorem digitChar_isDigit (d : Nat) : isDigitChar (digitChar d) = true := by
  have h : d % 10 < 10 := Nat.mod_lt _ (by decide)
  have hall : ∀ i : Fin 10, isDigitChar (Char.ofNat (48 + i.val)) = true := by decide
  exact hall ⟨d % 10, h⟩

theorem digitChar_toUpper (d : Nat) : (digitChar d).toUpper = digitChar d := by
  have h : d % 10 < 10 := Nat.mod_lt _ (by decide)
  have hall : ∀ i : Fin 10, (Char.ofNat (48 + i.val)).toUpper = Char.ofNat (48 + i.val) := by
    decide
  exact hall ⟨d % 10, h⟩

theorem generateRSNKey_matches3 (r : Nat → Nat) (k : Nat) :
    matchesUpper3 (generateRSNKey r k) = true := by
  simp [matchesUpper3, generateRSNKey, letterOf_upper]

theorem toUpperStr_generateRSNKey (r : Nat → Nat) (k : Nat) :
    toUpperStr (generateRSNKey r k) = generateRSNKey r k := by
  simp [toUpperStr, generateRSNKey, letterOf_toUpper]

theorem generateRSNKey_push_matches4 (r : Nat → Nat) (k d : Nat) :
    matchesUpper3Digit ((generateRSNKey r k).push (digitChar d)) = true := by
  simp [matchesUpper3Digit, generateRSNKey, String.push, letterOf_upper, digitChar_isDigit]

theorem toUpperStr_generateRSNKey_push (r : Nat → Nat) (k d : Nat) :
    toUpperStr ((generateRSNKey r k).push (digitChar d))
      = (generateRSNKey r k).push (digitChar d) := by
  simp [toUpperStr, generateRSNKey, String.push, letterOf_toUpper, digitChar_toUpper]

theorem generateUniqueKeyRun_probes (check : String → Bool) (r : Nat → Nat) (d : Nat) :
    (generateUniqueKeyRun check r d).2 = (genLoopRun check r).probes := rfl

theorem generateUniqueKeyRun_key (check : String → Bool) (r : Nat → Nat) (d : Nat) :
    (generateUniqueKeyRun check r d).1
      = toUpperStr (if maxAttempts ≤ (genLoopRun check r).attempts
        then (generateRSNKey r ((genLoopRun check r).attempts + 1)).push (digitChar d)
        else (genLoopRun check r).key) := rfl

theorem generateUniqueSessionCodeRun_probes (check : String → Bool) (r : Nat → Nat) (d : Nat) :
    (generateUniqueSessionCodeRun check r d).2 = (genLoopRun check r).probes := rfl

theorem generateUniqueSessionCodeRun_code (check : String → Bool) (r : Nat → Nat) (d : Nat) :
    (generateUniqueSessionCodeRun check r d).1
      = (if maxAttempts ≤ (genLoopRun check r).attempts
        then (generateRSNKey r ((genLoopRun check r).attempts + 1)).push (digitChar d)
        else (genLoopRun check r).key) := rfl

/-- With an always-unavailable probe the loop runs its whole fuel: the
`attempts` counter ends at `attempts + fuel` and the probe runs
`fuel + 1` times (one evaluation per loop body plus the exiting one). -/
theorem genLoop_false_counts (r : Nat → Nat) :
    ∀ (fuel : Nat) (key : String) (attempts probes : Nat),
      (genLoop (fun _ => false) r key attempts probes fuel).attempts = attempts + fuel ∧
      (genLoop (fun _ => false) r key attempts probes fuel).probes = probes + fuel + 1 := by
  intro fuel
  induction fuel with
  | zero => intro key a p; exact ⟨rfl, rfl⟩
  | succ f ih =>
    intro key a p
    simp only [genLoop, Bool.false_eq_true, if_false]
    refine ⟨?_, ?_⟩
    · rw [(ih _ _ _).1]; omega
    · rw [(ih _ _ _).2]; omega

/-- With an always-unavailable probe and at least one unit of fuel, the
loop's final key is the draw at index `attempts + fuel`. -/
theorem genLoop_false_key (r : Nat → Nat) :
    ∀ (fuel : Nat) (key : String) (attempts probes : Nat), 1 ≤ fuel →
      (genLoop (fun _ => false) r key attempts probes fuel).key
        = generateRSNKey r (attempts + fuel) := by
  intro fuel
  induction fuel with
  | zero => intro key a p h; omega
  | succ f ih =>
    intro key a p _
    simp only [genLoop, Bool.false_eq_true, if_false]
    rcases Nat.eq_zero_or_pos f with rfl | hf
    · rfl
    · rw [ih _ _ _ hf]; congr 1; omega

/-- The loop's final key is either the initial key or some draw. -/
theorem genLoop_key_cases (check : String → Bool) (r : Nat → Nat) :
    ∀ (fuel : Nat) (key : String) (attempts probes : Nat),
      (genLoop check r key attempts probes fuel).key = key ∨
        ∃ i, (genLoop check r key attempts probes fuel).key = generateRSNKey r i := by
  intro fuel
  induction fuel with
  | zero => intro key a p; exact .inl rfl
  | succ f ih =>
    intro key a p
    by_cases hc : check key
    · left; simp [genLoop, hc]
    · rcases ih (generateRSNKey r (a + 1)) (a + 1) (p + 1) with h | ⟨i, h⟩
      · right; exact ⟨a + 1, by simp [genLoop, hc, h]⟩
      · right; exact ⟨i, by simp [genLoop, hc, h]⟩

theorem genLoopRun_key_matches3 (check : String → Bool) (r : Nat → Nat) :
    matchesUpper3 (genLoopRun check r).key = true := by
  rcases genLoop_key_cases check r maxAttempts (generateRSNKey r 0) 0 0 with h | ⟨i, h⟩
  · unfold genLoopRun; rw [h]; exact generateRSNKey_matches3 r 0
  · unfold genLoopRun; rw [h]; exact generateRSNKey_matches3 r i

theorem genLoopRun_key_toUpper (check : String → Bool) (r : Nat → Nat) :
    toUpperStr (genLoopRun check r).key = (genLoopRun check r).key := by
  rcases genLoop_key_cases check r maxAttempts (generateRSNKey r 0) 0 0 with h | ⟨i, h⟩
  · unfold genLoopRun; rw [h]; exact toUpperStr_generateRSNKey r 0
  · unfold genLoopRun; rw [h]; exact toUpperStr_generateRSNKey r i

theorem genLoopRun_false_attempts (r : Nat → Nat) :
    (genLoopRun (fun _ => false) r).attempts = maxAttempts :=
  (genLoop_false_counts r maxAttempts (generateRSNKey r 0) 0 0).1

theorem genLoopRun_false_probes (r : Nat → Nat) :
    (genLoopRun (fun _ => false) r).probes = maxAttempts + 1 :=
  (genLoop_false_counts r maxAttempts (generateRSNKey r 0) 0 0).2

/-- C2 amended: with an always-false probe both generators run the probe
exactly `maxAttempts + 1 = 1001` times (1000 loop bodies plus the final
condition evaluation) and return a fresh draw — index `maxAttempts + 1`,
beyond every probed draw — with a decimal digit appended, matching
`^[A-Z]{3}[0-9]$`; for every probe, the returned value matches
`^[A-Z]{3}$` off the exhaustion path and `^[A-Z]{3}[0-9]$` on it. -/
theorem C2_generators (check : String → Bool) (r : Nat → Nat) (d : Nat) :
    (generateUniqueKeyRun (fun _ => false) r d).2 = maxAttempts + 1 ∧
    generateUniqueKey (fun _ => false) r d
      = (generateRSNKey r (maxAttempts + 1)).push (digitChar d) ∧
    matchesUpper3Digit (generateUniqueKey (fun _ => false) r d) = true ∧
    (generateUniqueSessionCodeRun (fun _ => false) r d).2 = maxAttempts + 1 ∧
    generateUniqueSessionCode (fun _ => false) r d
      = (generateRSNKey r (maxAttempts + 1)).push (digitChar d) ∧
    matchesUpper3Digit (generateUniqueSessionCode (fun _ => false) r d) = true ∧
    (if maxAttempts ≤ (genLoopRun check r).attempts
      then matchesUpper3Digit (generateUniqueKey check r d) = true ∧
        matchesUpper3Digit (generateUniqueSessionCode check r d) = true
      else matchesUpper3 (generateUniqueKey check r d) = true ∧
        matchesUpper3 (generateUniqueSessionCode check r d) = true) := by
  have hA := genLoopRun_false_attempts r
  have hkeyF : generateUniqueKey (fun _ => false) r d
      = (generateRSNKey r (maxAttempts + 1)).push (digitChar d) := by
    rw [generateUniqueKey, generateUniqueKeyRun_key, hA, if_pos (le_refl maxAttempts),
      toUpperStr_generateRSNKey_push]
  have hcodeF : generateUniqueSessionCode (fun _ => false) r d
      = (generateRSNKey r (maxAttempts + 1)).push (digitChar d) := by
    rw [generateUniqueSessionCode, generateUniqueSessionCodeRun_code, hA,
      if_pos (le_refl maxAttempts)]
  refine ⟨by rw [generateUniqueKeyRun_probes, genLoopRun_false_probes], hkeyF, ?_,
    by rw [generateUniqueSessionCodeRun_probes, genLoopRun_false_probes], hcodeF, ?_, ?_⟩
  · rw [hkeyF]; exact generateRSNKey_push_matches4 r (maxAttempts + 1) d
  · rw [hcodeF]; exact generateRSNKey_push_matches4 r (maxAttempts + 1) d
  · by_cases hex : maxAttempts ≤ (genLoopRun check r).attempts
    · rw [if_pos hex]
      constructor
      · rw [generateUniqueKey, generateUniqueKeyRun_key, if_pos hex,
          toUpperStr_generateRSNKey_push]
        exact generateRSNKey_push_matches4 r _ d
      · rw [generateUniqueSessionCode, generateUniqueSessionCodeRun_code, if_pos hex]
        exact generateRSNKey_push_matches4 r _ d
    · rw [if_neg hex]
      constructor
      · rw [generateUniqueKey, generateUniqueKeyRun_key, if_neg hex, genLoopRun_key_toUpper]
        exact genLoopRun_key_matches3 check r
      · rw [generateUniqueSessionCode, generateUniqueSessionCodeRun_code, if_neg hex]
        exact genLoopRun_key_matches3 check r

/-- C2 counterexample: with an always-false probe the probe count is
`1001`, not the claimed `maxAttempts = 1000` — the loop condition, whose
left operand is the probe, is evaluated once more than the 1000 body
iterations. -/
theorem C2_counterexample :
    (generateUniqueKeyRun (fun _ => false) (fun _ => 0) 0).2 = 1001 ∧ (1001 : Nat) ≠ 1000 := by
  constructor
  · rw [generateUniqueKeyRun_probes, genLoopRun_false_probes]; rfl
  · decide

/-! Participant registration window (POST /api/participants,
src/routes/participants.ts lines 79–90)

Unlike `calculateSessionStatus`, this handler builds its `Date`s as
`new Date(session.date + "T" + time)` — WITHOUT the `Z` suffix — so
JavaScript parses the string in the evaluating process's local time
zone.  `tz` is that zone's UTC offset in minutes (east positive): a
local wall-clock value `v` in that zone denotes the instant
`v - tz * 60000`. -/

def toInstantLocal (date : Int) (minutes : Nat) (tz : Int) : Int :=
  date + (minutes : Int) * 60000 - tz * 60000

/-- The registration-window gate of POST /api/participants: reject when
`now < registrationStartDateTime`, then when `now >= closingTime`
(`closingTime = sessionStartDateTime - closingMinutes * 60 * 1000`);
`true` means the registration is accepted. -/
def registrationAccepted (s : Session) (now : Int) (tz : Int) : Bool :=
  let registrationStartDateTime := toInstantLocal s.date s.registrationStartTime tz
  let sessionStartDateTime := toInstantLocal s.date s.startTime tz
  let closingTime := sessionStartDateTime - (s.closingMinutes : Int) * 60 * 1000
  if now < registrationStartDateTime then false
  else if now ≥ closingTime then false
  else true

/-- The session of the C4 failing input: `registrationStartTime = 08:00`,
`startTime = 10:00`, `closingMinutes = 60` (closing boundary `09:00`). -/
def C4_session : Session :=
  { id := "s4", sessionCode := "TZD", sessionNumber := 4, date := 0,
    registrationStartTime := 480, startTime := 600, endTime := none,
    closingMinutes := 60, status := .«open», comments := "",
    createdById := none, createdByName := none }

/-- C4: at the same absolute instant `08:20 UTC`, a process in UTC
accepts the registration while a process at UTC+1 rejects it — the
participant registration-window check parses the session times in the
process-local zone, so the accept/reject decision is not independent of
the evaluating process's time zone.  (The status engine, by contrast,
parses with the `Z` suffix and takes no zone input at all.) -/
theorem C4_registration_tz_dependent :
    registrationAccepted C4_session 30000000 0 = true ∧
      registrationAccepted C4_session 30000000 60 = false := by
  constructor
  · decide
  · decide

end FlightConnect
